import Mathlib

/-
Shallow embedding of the tauri-plugin-serialport command surface
(src/src/command.rs): the session registry, its commands
(open, close, close_all, force_close, read, cancel_read, write,
write_binary), the optional-configuration translation helpers, and one
iteration of the background read loop.

Hardware effects (opening a port, cloning a handle, the bytes a read
returns, the outcome of a write) are supplied as explicit parameters so
every command is a pure function of the registry and its environment.
-/

namespace SerialportPlugin

/-- The single string-carrying error variant used throughout command.rs
(every failure is built with Error::String of a formatted message). -/
inductive Error where
  | string : String → Error
  deriving DecidableEq, Repr

/-- A stored cancellation sender (std::sync::mpsc::Sender). The field
records whether the matching receiver is still alive: mpsc send succeeds
exactly when the receiver has not been dropped. -/
structure Sender where
  connected : Bool
  deriving DecidableEq, Repr

/-- mpsc Sender::send: delivers when the receiver is connected, otherwise
fails with the standard "sending on a closed channel" reason. -/
def Sender.send (s : Sender) (_msg : Nat) : Except String Unit :=
  if s.connected then Except.ok () else Except.error "sending on a closed channel"

/-- One registry entry (state.rs SerialportInfo, as constructed and used in
command.rs): an open port handle plus the optional cancellation sender of
an active background reader. The handle is an opaque identifier. -/
structure SerialportInfo where
  serialport : Nat
  sender : Option Sender
  deriving DecidableEq, Repr

/-- The session registry: the HashMap behind SerialportState, embedded as
an association list keyed by port path. -/
abbrev Registry := List (String × SerialportInfo)

def lookupEntry : Registry → String → Option SerialportInfo
  | [], _ => none
  | (k, v) :: rest, path => if k = path then some v else lookupEntry rest path

/-- In-place mutation of the entry found by get_mut: replaces the value at
the first matching key, leaves everything else untouched. -/
def updateEntry : Registry → String → SerialportInfo → Registry
  | [], _, _ => []
  | (k, v) :: rest, path, newv =>
      if k = path then (k, newv) :: rest else (k, v) :: updateEntry rest path newv

def removeEntry : Registry → String → Registry
  | [], _ => []
  | (k, v) :: rest, path =>
      if k = path then rest else (k, v) :: removeEntry rest path

def containsKey : Registry → String → Bool
  | [], _ => false
  | (k, _) :: rest, path => if k = path then true else containsKey rest path

def insertEntry (st : Registry) (path : String) (info : SerialportInfo) : Registry :=
  st ++ [(path, info)]

/-- command.rs get_serialport: looks the entry up under the registry lock
and applies the closure to it; the closure returns a result together with
the (possibly mutated) entry, and a closure error leaves the entry as it
was (none of the call sites mutate before an early error return). A
missing entry fails with the Serial Port Not Found message. -/
def get_serialport (st : Registry) (path : String)
    (f : SerialportInfo → Except Error (α × SerialportInfo)) :
    Except Error α × Registry :=
  match lookupEntry st path with
  | some info =>
      match f info with
      | Except.ok (a, info2) => (Except.ok a, updateEntry st path info2)
      | Except.error e => (Except.error e, st)
  | none => (Except.error (Error.string "Serial Port Not Found"), st)

inductive DataBits where
  | five | six | seven | eight
  deriving DecidableEq, Repr

inductive FlowControl where
  | none | software | hardware
  deriving DecidableEq, Repr

inductive Parity where
  | none | odd | even
  deriving DecidableEq, Repr

inductive StopBits where
  | one | two
  deriving DecidableEq, Repr

/-- command.rs get_data_bits: 5/6/7/8 map to themselves, anything else and
absence fall back to eight. -/
def get_data_bits (value : Option Nat) : DataBits :=
  match value with
  | some value =>
      if value = 5 then DataBits.five
      else if value = 6 then DataBits.six
      else if value = 7 then DataBits.seven
      else if value = 8 then DataBits.eight
      else DataBits.eight
  | none => DataBits.eight

/-- command.rs get_flow_control: "Software" and "Hardware" map to
themselves, anything else and absence fall back to none. -/
def get_flow_control (value : Option String) : FlowControl :=
  match value with
  | some value =>
      if value = "Software" then FlowControl.software
      else if value = "Hardware" then FlowControl.hardware
      else FlowControl.none
  | none => FlowControl.none

/-- command.rs get_parity: "Odd" and "Even" map to themselves, anything
else and absence fall back to none. -/
def get_parity (value : Option String) : Parity :=
  match value with
  | some value =>
      if value = "Odd" then Parity.odd
      else if value = "Even" then Parity.even
      else Parity.none
  | none => Parity.none

/-- command.rs get_stop_bits: 1/2 map to themselves, anything else and
absence fall back to two. -/
def get_stop_bits (value : Option Nat) : StopBits :=
  match value with
  | some value =>
      if value = 1 then StopBits.one
      else if value = 2 then StopBits.two
      else StopBits.two
  | none => StopBits.two

/-- The settings handed to the serialport builder chain in open
(lines 272-277 of command.rs). -/
structure PortSettings where
  path : String
  baudRate : Nat
  dataBits : DataBits
  flowControl : FlowControl
  parity : Parity
  stopBits : StopBits
  timeoutMillis : Nat
  deriving DecidableEq, Repr

/-- The builder chain of open: serialport::new(path, baud_rate) followed by
data_bits, flow_control, parity, stop_bits and timeout (absent timeout
falls back to 200 ms via unwrap_or). -/
def build_settings (path : String) (baudRate : Nat) (dataBits : Option Nat)
    (flowControl : Option String) (parity : Option String) (stopBits : Option Nat)
    (timeout : Option Nat) : PortSettings :=
  { path := path
    baudRate := baudRate
    dataBits := get_data_bits dataBits
    flowControl := get_flow_control flowControl
    parity := get_parity parity
    stopBits := get_stop_bits stopBits
    timeoutMillis := timeout.getD 200 }

/-- command.rs open: fails with the already-opened message when the path is
present; otherwise asks the hardware (hwOpen, the builder .open() call) for
a handle and inserts a fresh entry with no active reader, or fails with the
open-failure message carrying the hardware description. -/
def openPort (hwOpen : PortSettings → Except String Nat) (st : Registry) (path : String)
    (baudRate : Nat) (dataBits : Option Nat) (flowControl : Option String)
    (parity : Option String) (stopBits : Option Nat) (timeout : Option Nat) :
    Except Error Unit × Registry :=
  if containsKey st path then
    (Except.error (Error.string ("Port " ++ path ++ " is already opened")), st)
  else
    match hwOpen (build_settings path baudRate dataBits flowControl parity stopBits timeout) with
    | Except.ok handle =>
        (Except.ok (), insertEntry st path { serialport := handle, sender := none })
    | Except.error description =>
        (Except.error (Error.string ("Failed to open port " ++ path ++ ": " ++ description)), st)

/-- command.rs close: remove(&path); Ok when an entry was removed,
otherwise the not-opened error, registry untouched. -/
def close (st : Registry) (path : String) : Except Error Unit × Registry :=
  if containsKey st path then (Except.ok (), removeEntry st path)
  else (Except.error (Error.string ("Port " ++ path ++ " is not opened")), st)

/-- command.rs cancel_read: when a sender is stored, send the cancellation
message; a send failure returns the cancel-failure error at once (before
the sender field is overwritten), otherwise the sender is cleared and the
call succeeds. With no sender stored the call clears the field (a no-op)
and succeeds. -/
def cancel_read (st : Registry) (path : String) : Except Error Unit × Registry :=
  get_serialport st path (fun serialport_info =>
    match serialport_info.sender with
    | some sender =>
        match sender.send 1 with
        | Except.ok _ => Except.ok ((), { serialport_info with sender := none })
        | Except.error e => Except.error (Error.string ("Failed to cancel read: " ++ e))
    | none => Except.ok ((), { serialport_info with sender := none }))

/-- command.rs force_close: when the entry exists and holds a sender, send
the cancellation message, returning the cancel-failure error at once when
it cannot be delivered (the entry stays in the registry); after a delivered
signal, or with no sender, the entry is removed. A missing entry returns
Ok with the registry untouched. -/
def force_close (st : Registry) (path : String) : Except Error Unit × Registry :=
  match lookupEntry st path with
  | some serial =>
      match serial.sender with
      | some sender =>
          match sender.send 1 with
          | Except.ok _ => (Except.ok (), removeEntry st path)
          | Except.error e =>
              (Except.error (Error.string ("Cancel read data failed: " ++ e)), st)
      | none => (Except.ok (), removeEntry st path)
  | none => (Except.ok (), st)

/-- The iteration of close_all over map.values(): sends the cancellation
message to every stored sender, stopping with the cancel-failure error at
the first undeliverable one. -/
def sendToAll : Registry → Except Error Unit
  | [] => Except.ok ()
  | (_, serialport_info) :: rest =>
      match serialport_info.sender with
      | some sender =>
          match sender.send 1 with
          | Except.ok _ => sendToAll rest
          | Except.error e => Except.error (Error.string ("Failed to cancel read: " ++ e))
      | none => sendToAll rest

/-- command.rs close_all: signal every active reader under the lock; any
send failure aborts with the error and the map untouched, full success
clears the map. -/
def close_all (st : Registry) : Except Error Unit × Registry :=
  match sendToAll st with
  | Except.ok _ => (Except.ok (), [])
  | Except.error e => (Except.error e, st)

/-- command.rs read: with a sender already stored this is a no-op success
(Bool result false: no new loop thread was spawned). Otherwise the handle
is cloned (cloneResult, the try_clone call); on clone success a fresh
connected cancellation channel is created, its sender stored in the entry,
and the read-loop thread spawned (Bool result true); a clone failure
returns the read-failure error with the entry untouched. -/
def read (cloneResult : Except String Unit) (st : Registry) (path : String) :
    Except Error Bool × Registry :=
  get_serialport st path (fun serialport_info =>
    if serialport_info.sender.isSome then
      Except.ok (false, serialport_info)
    else
      match cloneResult with
      | Except.ok _ =>
          Except.ok (true, { serialport_info with sender := some { connected := true } })
      | Except.error e =>
          Except.error (Error.string ("Failed to read port " ++ path ++ ": " ++ e)))

/-- The UTF-8 byte encoding used by write (value.as_bytes() on a Rust
String, which is UTF-8 by construction). -/
def utf8Bytes (s : String) : List Nat :=
  s.toUTF8.toList.map UInt8.toNat

/-- command.rs write: looks the entry up and writes the UTF-8 bytes of the
text payload to its port handle (portWrite, the handle write call),
returning the byte count, or the write-failure error on an I/O error. -/
def write (portWrite : Nat → List Nat → Except String Nat) (st : Registry)
    (path : String) (value : String) : Except Error Nat × Registry :=
  get_serialport st path (fun serialport_info =>
    match portWrite serialport_info.serialport (utf8Bytes value) with
    | Except.ok size => Except.ok (size, serialport_info)
    | Except.error e =>
        Except.error (Error.string ("Failed to write data to port " ++ path ++ ": " ++ e)))

/-- command.rs write_binary: identical to write but the payload is already
a byte vector. -/
def write_binary (portWrite : Nat → List Nat → Except String Nat) (st : Registry)
    (path : String) (value : List Nat) : Except Error Nat × Registry :=
  get_serialport st path (fun serialport_info =>
    match portWrite serialport_info.serialport value with
    | Except.ok size => Except.ok (size, serialport_info)
    | Except.error e =>
        Except.error (Error.string ("Failed to write data to port " ++ path ++ ": " ++ e)))

/-- Outcome of try_recv on the cancellation channel at the top of the read
loop. -/
inductive RecvResult where
  | ok : Nat → RecvResult
  | disconnected
  | empty
  deriving DecidableEq, Repr

/-- The payload emitted to the notification sink: the prefix of the buffer
actually read, together with its length (state.rs ReadData). -/
structure ReadData where
  data : List Nat
  size : Nat
  deriving DecidableEq, Repr

/-- What one read-loop iteration does: stop, or continue after emitting an
optional chunk. -/
inductive StepOutcome where
  | stopped
  | continued : Option ReadData → StepOutcome
  deriving DecidableEq, Repr

/-- One iteration of the read-loop thread body in command.rs read: a
received cancellation message or a disconnected channel stops the loop;
otherwise the bounded read runs — on Ok(size) the buffer prefix of that
length is emitted as a chunk (whatever the size, zero included), and on a
read error nothing is emitted and the loop continues. The readResult
parameter is the outcome of serial.read: the list of bytes placed in the
buffer on success. -/
def readLoopStep (recv : RecvResult) (readResult : Except Unit (List Nat)) : StepOutcome :=
  match recv with
  | RecvResult.ok _ => StepOutcome.stopped
  | RecvResult.disconnected => StepOutcome.stopped
  | RecvResult.empty =>
      match readResult with
      | Except.ok bytes => StepOutcome.continued (some { data := bytes, size := bytes.length })
      | Except.error _ => StepOutcome.continued none

/-- Rewriting the entry found at a key with its own value leaves the
association list unchanged. -/
theorem updateEntry_self (st : Registry) (path : String) (info : SerialportInfo)
    (h : lookupEntry st path = some info) : updateEntry st path info = st := by
  induction st with
  | nil => simp [lookupEntry] at h
  | cons kv rest ih =>
      obtain ⟨k, v⟩ := kv
      by_cases hk : k = path
      · simp [lookupEntry, hk] at h
        simp [updateEntry, hk, h]
      · simp [lookupEntry, hk] at h
        simp [updateEntry, hk, ih h]

/-- Looking up a key right after updating it yields the new value, provided
the key was present. -/
theorem lookupEntry_updateEntry (st : Registry) (path : String)
    (info newv : SerialportInfo) (h : lookupEntry st path = some info) :
    lookupEntry (updateEntry st path newv) path = some newv := by
  induction st with
  | nil => simp [lookupEntry] at h
  | cons kv rest ih =>
      obtain ⟨k, v⟩ := kv
      by_cases hk : k = path
      · simp [lookupEntry, updateEntry, hk]
      · simp [lookupEntry, hk] at h
        simp [lookupEntry, updateEntry, hk, ih h]

/-- A key that lookup misses is not contained. -/
theorem containsKey_eq_false (st : Registry) (path : String)
    (h : lookupEntry st path = none) : containsKey st path = false := by
  induction st with
  | nil => simp [containsKey]
  | cons kv rest ih =>
      obtain ⟨k, v⟩ := kv
      by_cases hk : k = path
      · simp [lookupEntry, hk] at h
      · simp [lookupEntry, hk] at h
        simp [containsKey, hk, ih h]

/-- The close_all iteration succeeds exactly when every stored sender can
deliver its cancellation message. -/
theorem sendToAll_ok_iff (st : Registry) :
    sendToAll st = Except.ok () ↔
      ∀ kv ∈ st, ∀ s, kv.2.sender = some s → s.connected = true := by
  induction st with
  | nil => simp [sendToAll]
  | cons kv rest ih =>
      obtain ⟨k, v⟩ := kv
      cases hs : v.sender with
      | none => simp [sendToAll, hs, ih]
      | some s =>
          cases hc : s.connected with
          | true => simp [sendToAll, hs, Sender.send, hc, ih]
          | false =>
              simp [sendToAll, hs, Sender.send, hc]

/-- The only error the close_all iteration can produce is the
cancel-failure message built from the mpsc send failure. -/
theorem sendToAll_error_eq (st : Registry) (e : Error)
    (h : sendToAll st = Except.error e) :
    e = Error.string "Failed to cancel read: sending on a closed channel" := by
  induction st with
  | nil => simp [sendToAll] at h
  | cons kv rest ih =>
      obtain ⟨k, v⟩ := kv
      cases hs : v.sender with
      | none =>
          simp only [sendToAll, hs] at h
          exact ih h
      | some s =>
          cases hc : s.connected with
          | true =>
              simp only [sendToAll, hs, Sender.send, hc, if_true] at h
              exact ih h
          | false =>
              simp [sendToAll, hs, Sender.send, hc] at h
              exact h.symm

/-- When some stored sender cannot deliver, the close_all iteration fails
with the cancel-failure error. -/
theorem sendToAll_fails (st : Registry)
    (h : ¬ ∀ kv ∈ st, ∀ s, kv.2.sender = some s → s.connected = true) :
    sendToAll st =
      Except.error (Error.string "Failed to cancel read: sending on a closed channel") := by
  cases hsend : sendToAll st with
  | ok u =>
      cases u
      exact absurd ((sendToAll_ok_iff st).mp hsend) h
  | error e =>
      rw [sendToAll_error_eq st e hsend]

/-- C1: the claim states that cancel_read clears the stored sender even
when signal delivery fails. Counterexample: with one entry whose sender is
disconnected, cancel_read fails and the entry still holds the original
sender — it was not cleared to none. -/
theorem cancel_read_not_cleared_cex :
    (cancel_read [("COM1", { serialport := 0, sender := some { connected := false } })]
        "COM1").1 =
      Except.error (Error.string "Failed to cancel read: sending on a closed channel") ∧
    lookupEntry
      (cancel_read [("COM1", { serialport := 0, sender := some { connected := false } })]
        "COM1").2 "COM1" =
      some { serialport := 0, sender := some { connected := false } } :=
  ⟨rfl, rfl⟩

/-- C1 (amended): for an entry in the registry, cancel_read clears the
stored sender to none exactly when no failure occurs — that is, when no
sender is stored or the signal is delivered; when delivery fails the call
returns the cancel-failure error early and the sender is left in place
(the registry is unchanged). -/
theorem cancel_read_clears_iff_delivered (st : Registry) (path : String)
    (info : SerialportInfo) (h : lookupEntry st path = some info) :
    ((info.sender = none ∨ info.sender = some { connected := true }) →
      (cancel_read st path).1 = Except.ok () ∧
      lookupEntry (cancel_read st path).2 path = some { info with sender := none }) ∧
    (info.sender = some { connected := false } →
      (cancel_read st path).1 =
        Except.error (Error.string "Failed to cancel read: sending on a closed channel") ∧
      (cancel_read st path).2 = st) := by
  have hupd : lookupEntry (updateEntry st path { info with sender := none }) path =
      some { info with sender := none } := lookupEntry_updateEntry st path info _ h
  constructor
  · rintro (hs | hs)
    · have heq : cancel_read st path =
          (Except.ok (), updateEntry st path { info with sender := none }) := by
        simp [cancel_read, get_serialport, h, hs]
      rw [heq]
      exact ⟨rfl, hupd⟩
    · have heq : cancel_read st path =
          (Except.ok (), updateEntry st path { info with sender := none }) := by
        simp [cancel_read, get_serialport, h, hs, Sender.send]
      rw [heq]
      exact ⟨rfl, hupd⟩
  · intro hs
    simp [cancel_read, get_serialport, h, hs, Sender.send]

/-- C1 witness: a connected sender is delivered to and cleared. -/
theorem cancel_read_clears_iff_delivered_witness :
    (cancel_read [("COM1", { serialport := 0, sender := some { connected := true } })]
        "COM1").1 = Except.ok () ∧
    lookupEntry
      (cancel_read [("COM1", { serialport := 0, sender := some { connected := true } })]
        "COM1").2 "COM1" = some { serialport := 0, sender := none } :=
  (cancel_read_clears_iff_delivered
      [("COM1", { serialport := 0, sender := some { connected := true } })] "COM1"
      { serialport := 0, sender := some { connected := true } } rfl).1 (Or.inr rfl)

/-- C2: the claim states that a force_close delivery failure is non-fatal
and the entry is still removed. Counterexample: with one entry whose
sender is disconnected, force_close returns the cancel-failure error and
the entry is still in the registry. -/
theorem force_close_send_failure_cex :
    force_close [("COM1", { serialport := 0, sender := some { connected := false } })]
        "COM1" =
      (Except.error (Error.string "Cancel read data failed: sending on a closed channel"),
        [("COM1", { serialport := 0, sender := some { connected := false } })]) :=
  rfl

/-- C2 (amended): when the entry has an active reader and the cancellation
signal cannot be delivered, force_close fails with the cancel-failure
error and leaves the registry unchanged: the entry is not removed. -/
theorem force_close_send_failure_fatal (st : Registry) (path : String)
    (info : SerialportInfo) (h : lookupEntry st path = some info)
    (hs : info.sender = some { connected := false }) :
    force_close st path =
      (Except.error (Error.string "Cancel read data failed: sending on a closed channel"),
        st) := by
  simp [force_close, h, hs, Sender.send]

/-- C2 witness. -/
theorem force_close_send_failure_fatal_witness :
    force_close
        [("COM2", { serialport := 3, sender := some { connected := false } })] "COM2" =
      (Except.error (Error.string "Cancel read data failed: sending on a closed channel"),
        [("COM2", { serialport := 3, sender := some { connected := false } })]) :=
  force_close_send_failure_fatal _ "COM2" _ rfl rfl

/-- C3: the claim states force_close on a missing identifier fails with
NotFound. Counterexample: on the empty registry force_close succeeds. -/
theorem force_close_missing_cex :
    force_close [] "COM1" = (Except.ok (), []) := rfl

/-- C3 (amended): for an identifier with no registry entry, force_close
succeeds (returns Ok) and leaves the registry unchanged, rather than
failing with NotFound. -/
theorem force_close_missing_entry_ok (st : Registry) (path : String)
    (h : lookupEntry st path = none) :
    force_close st path = (Except.ok (), st) := by
  simp [force_close, h]

/-- C3 witness. -/
theorem force_close_missing_entry_ok_witness :
    force_close [("COM2", { serialport := 0, sender := none })] "COM1" =
      (Except.ok (), [("COM2", { serialport := 0, sender := none })]) :=
  force_close_missing_entry_ok _ "COM1" rfl

/-- C4: the claim states a chunk is emitted iff a read succeeds with more
than zero bytes. Counterexample: a successful read of zero bytes also
emits — a chunk of length zero. -/
theorem read_loop_zero_byte_emit_cex :
    readLoopStep RecvResult.empty (Except.ok []) =
      StepOutcome.continued (some { data := [], size := 0 }) := rfl

/-- C4 (amended): in a read-loop iteration that was not cancelled, a chunk
is emitted iff the bounded read succeeds — with any byte count, zero
included — and the emitted chunk carries exactly the bytes read and their
length; a read error emits nothing and does not stop the loop; only a
received cancellation message or a disconnected channel stops it. -/
theorem read_loop_step_emission (readResult : Except Unit (List Nat)) :
    ((∃ chunk, readLoopStep RecvResult.empty readResult =
        StepOutcome.continued (some chunk)) ↔ ∃ bytes, readResult = Except.ok bytes) ∧
    (∀ bytes, readResult = Except.ok bytes →
      readLoopStep RecvResult.empty readResult =
        StepOutcome.continued (some { data := bytes, size := bytes.length })) ∧
    (∀ e, readResult = Except.error e →
      readLoopStep RecvResult.empty readResult = StepOutcome.continued none) ∧
    (∀ msg r, readLoopStep (RecvResult.ok msg) r = StepOutcome.stopped) ∧
    (∀ r, readLoopStep RecvResult.disconnected r = StepOutcome.stopped) := by
  refine ⟨?_, ?_, ?_, fun msg r => rfl, fun r => rfl⟩
  · cases readResult <;> simp [readLoopStep]
  · rintro bytes rfl
    rfl
  · rintro e rfl
    rfl

/-- C4 witness: a three-byte successful read emits a chunk of size 3. -/
theorem read_loop_step_emission_witness :
    readLoopStep RecvResult.empty (Except.ok [7, 8, 9]) =
      StepOutcome.continued (some { data := [7, 8, 9], size := 3 }) :=
  (read_loop_step_emission (Except.ok [7, 8, 9])).2.1 [7, 8, 9] rfl

/-- C5: when the entry already stores a sender (a reader is active), read
is a no-op success: it returns Ok, no new loop thread is spawned (Bool
result false), and the registry — the stored sender included — is exactly
unchanged, whatever the clone environment would do. -/
theorem read_idempotent_start (cloneResult : Except String Unit) (st : Registry)
    (path : String) (info : SerialportInfo) (h : lookupEntry st path = some info)
    (hactive : info.sender.isSome = true) :
    read cloneResult st path = (Except.ok false, st) := by
  unfold read get_serialport
  rw [h]
  simp only [hactive, if_true]
  rw [updateEntry_self st path info h]

/-- C5 witness: even with a clone environment that would fail, a second
read on an active entry is a no-op success. -/
theorem read_idempotent_start_witness :
    read (Except.error "clone would fail")
        [("COM1", { serialport := 0, sender := some { connected := true } })] "COM1" =
      (Except.ok false,
        [("COM1", { serialport := 0, sender := some { connected := true } })]) :=
  read_idempotent_start _ _ "COM1" _ rfl rfl

/-- C6: opening an identifier already present in the registry fails with
the already-opened error and returns the registry exactly as it was, still
holding the first session entry, whatever configuration and hardware
environment the second call carries. -/
theorem open_already_open (hwOpen : PortSettings → Except String Nat) (st : Registry)
    (path : String) (baudRate : Nat) (dataBits : Option Nat)
    (flowControl : Option String) (parity : Option String) (stopBits : Option Nat)
    (timeout : Option Nat) (h : containsKey st path = true) :
    openPort hwOpen st path baudRate dataBits flowControl parity stopBits timeout =
      (Except.error (Error.string ("Port " ++ path ++ " is already opened")), st) := by
  simp [openPort, h]

/-- C6 witness: a second open of COM1 at another baud rate fails and the
registry still holds the first session entry. -/
theorem open_already_open_witness :
    openPort (fun _ => Except.ok 9)
        [("COM1", { serialport := 5, sender := none })] "COM1"
        19200 none none none none none =
      (Except.error (Error.string "Port COM1 is already opened"),
        [("COM1", { serialport := 5, sender := none })]) :=
  open_already_open _ _ "COM1" 19200 none none none none none rfl

/-- C7: close_all is atomic — either it succeeds and empties the registry,
or its result leaves the registry exactly unchanged; it succeeds with the
empty registry exactly when every stored cancellation sender can deliver
its signal; and whenever some stored sender cannot deliver, close_all
fails with the cancel-failure error and the registry is returned exactly
unchanged — a partial clear never occurs. -/
theorem close_all_atomic (st : Registry) :
    (close_all st = (Except.ok (), []) ∨ (close_all st).2 = st) ∧
    (close_all st = (Except.ok (), []) ↔
      ∀ kv ∈ st, ∀ s, kv.2.sender = some s → s.connected = true) ∧
    ((¬ ∀ kv ∈ st, ∀ s, kv.2.sender = some s → s.connected = true) →
      close_all st =
        (Except.error (Error.string "Failed to cancel read: sending on a closed channel"),
          st)) := by
  refine ⟨?_, ?_, ?_⟩
  · cases hsend : sendToAll st with
    | ok u => exact Or.inl (by simp [close_all, hsend])
    | error e => exact Or.inr (by simp [close_all, hsend])
  · rw [← sendToAll_ok_iff]
    cases hsend : sendToAll st with
    | ok u => simp [close_all, hsend]
    | error e => simp [close_all, hsend]
  · intro hn
    simp [close_all, sendToAll_fails st hn]

/-- C7 witness: with a connected active reader and an idle entry close_all
delivers and clears everything; with a disconnected active reader it fails
with the cancel-failure error and the registry is unchanged. -/
theorem close_all_atomic_witness :
    close_all
        [("COM1", { serialport := 0, sender := some { connected := true } }),
          ("COM2", { serialport := 1, sender := none })] =
      (Except.ok (), []) ∧
    close_all [("COM3", { serialport := 2, sender := some { connected := false } })] =
      (Except.error (Error.string "Failed to cancel read: sending on a closed channel"),
        [("COM3", { serialport := 2, sender := some { connected := false } })]) :=
  ⟨(close_all_atomic
      [("COM1", { serialport := 0, sender := some { connected := true } }),
        ("COM2", { serialport := 1, sender := none })]).2.1.mpr (by decide),
    (close_all_atomic
      [("COM3", { serialport := 2, sender := some { connected := false } })]).2.2
      (by decide)⟩

/-- C8: read, write, write_binary, cancel_read and close on an identifier
with no registry entry each fail — the first four with the Serial Port Not
Found message of get_serialport, close with its not-opened message — and
each leaves the registry unchanged. -/
theorem session_ops_not_found (portWrite : Nat → List Nat → Except String Nat)
    (cloneResult : Except String Unit) (st : Registry) (path : String)
    (value : String) (bytes : List Nat) (h : lookupEntry st path = none) :
    read cloneResult st path =
      (Except.error (Error.string "Serial Port Not Found"), st) ∧
    write portWrite st path value =
      (Except.error (Error.string "Serial Port Not Found"), st) ∧
    write_binary portWrite st path bytes =
      (Except.error (Error.string "Serial Port Not Found"), st) ∧
    cancel_read st path =
      (Except.error (Error.string "Serial Port Not Found"), st) ∧
    close st path =
      (Except.error (Error.string ("Port " ++ path ++ " is not opened")), st) := by
  have hc := containsKey_eq_false st path h
  exact ⟨by simp [read, get_serialport, h], by simp [write, get_serialport, h],
    by simp [write_binary, get_serialport, h], by simp [cancel_read, get_serialport, h],
    by simp [close, hc]⟩

/-- C8 witness: every session operation on COM1 against a registry holding
only COM2 fails with the not-found error and leaves the registry as it
was. -/
theorem session_ops_not_found_witness :
    read (Except.ok ()) [("COM2", { serialport := 0, sender := none })] "COM1" =
      (Except.error (Error.string "Serial Port Not Found"),
        [("COM2", { serialport := 0, sender := none })]) ∧
    close [("COM2", { serialport := 0, sender := none })] "COM1" =
      (Except.error (Error.string "Port COM1 is not opened"),
        [("COM2", { serialport := 0, sender := none })]) :=
  ⟨(session_ops_not_found (fun _ _ => Except.ok 0) (Except.ok ())
      [("COM2", { serialport := 0, sender := none })] "COM1" "" [] rfl).1,
    (session_ops_not_found (fun _ _ => Except.ok 0) (Except.ok ())
      [("COM2", { serialport := 0, sender := none })] "COM1" "" [] rfl).2.2.2.2⟩

/-- C9: the optional-configuration translation is total and maps as
documented — data bits 5/6/7/8 to themselves and anything else or absence
to eight; stop bits 1/2 to themselves and anything else or absence to two;
flow control Software/Hardware to themselves and anything else or absence
to none; parity Odd/Even to themselves and anything else or absence to
none; an absent timeout to 200 milliseconds in the built settings. -/
theorem open_config_translation (d sbv : Nat) (f p : String) (b : Nat)
    (db : Option Nat) (fc pa : Option String) (sb : Option Nat) (pathArg : String)
    (hd : d ≠ 5 ∧ d ≠ 6 ∧ d ≠ 7 ∧ d ≠ 8)
    (hf : f ≠ "Software" ∧ f ≠ "Hardware")
    (hp : p ≠ "Odd" ∧ p ≠ "Even")
    (hs : sbv ≠ 1 ∧ sbv ≠ 2) :
    get_data_bits (some 5) = DataBits.five ∧
    get_data_bits (some 6) = DataBits.six ∧
    get_data_bits (some 7) = DataBits.seven ∧
    get_data_bits (some 8) = DataBits.eight ∧
    get_data_bits (some d) = DataBits.eight ∧
    get_data_bits none = DataBits.eight ∧
    get_stop_bits (some 1) = StopBits.one ∧
    get_stop_bits (some 2) = StopBits.two ∧
    get_stop_bits (some sbv) = StopBits.two ∧
    get_stop_bits none = StopBits.two ∧
    get_flow_control (some "Software") = FlowControl.software ∧
    get_flow_control (some "Hardware") = FlowControl.hardware ∧
    get_flow_control (some f) = FlowControl.none ∧
    get_flow_control none = FlowControl.none ∧
    get_parity (some "Odd") = Parity.odd ∧
    get_parity (some "Even") = Parity.even ∧
    get_parity (some p) = Parity.none ∧
    get_parity none = Parity.none ∧
    (build_settings pathArg b db fc pa sb none).timeoutMillis = 200 := by
  obtain ⟨hd5, hd6, hd7, hd8⟩ := hd
  obtain ⟨hf1, hf2⟩ := hf
  obtain ⟨hp1, hp2⟩ := hp
  obtain ⟨hs1, hs2⟩ := hs
  refine ⟨rfl, rfl, rfl, rfl, ?_, rfl, rfl, rfl, ?_, rfl, rfl, rfl, ?_, rfl,
    rfl, rfl, ?_, rfl, rfl⟩
  · simp [get_data_bits, hd5, hd6, hd7, hd8]
  · simp [get_stop_bits, hs1, hs2]
  · simp [get_flow_control, hf1, hf2]
  · simp [get_parity, hp1, hp2]

/-- C9 witness: out-of-range data bits fall back to eight. -/
theorem open_config_translation_witness :
    get_data_bits (some 9) = DataBits.eight :=
  (open_config_translation 9 3 "soft" "odd" 9600 none none none none "COM1"
    (by decide) (by decide) (by decide) (by decide)).2.2.2.2.1

/-- C10: write on a text payload and write_binary on its UTF-8 byte
encoding are one and the same function of the registry and of the port
write environment: the same byte count on success and the same
write-failure error otherwise. -/
theorem write_refines_write_binary (portWrite : Nat → List Nat → Except String Nat)
    (st : Registry) (path : String) (value : String) :
    write portWrite st path value = write_binary portWrite st path (utf8Bytes value) :=
  rfl

end SerialportPlugin
